import Mathlib

/-!
Shallow embedding of the BeVec adapter layer (src/bevec) and proofs about it.

Modelling conventions:
* Python values appearing in canonical records are embedded as `PyVal`
  (strings, numbers as rationals, lists, dicts, None).
* Raising an exception is embedded as returning `Except.error`; the four
  custom exception classes of `bevec/core/exceptions.py` become the
  constructors of `BeVecError`.
* An adapter method that, after validation, issues exactly one native
  provider call is embedded as a function whose `Except.ok` payload is the
  argument of that single native call; `Except.error` means the method
  raised before the native call was issued (zero provider calls).
* Where a method consumes the native call's response (query, delete), the
  response is an explicit parameter: `Except String r` or `NativeOutcome`
  for calls whose failures the adapter catches.
* Environment-variable reads are embedded as an explicit
  `env : String -> Option String` parameter (`none` = variable unset).
-/

/-- Embedded Python values, as far as the adapter layer inspects them. -/
inductive PyVal : Type where
  | str (s : String)
  | num (q : ℚ)
  | list (xs : List PyVal)
  | dict (kvs : List (String × PyVal))
  | none

/-- The error taxonomy of `bevec/core/exceptions.py`. -/
inductive BeVecError : Type where
  | configurationError (msg : String)
  | providerError (msg : String)
  | validationError (msg : String)
  | vectorOperationError (msg : String)
deriving DecidableEq, Repr

/-- Python `isinstance(v, dict)`. -/
def pyIsDict : PyVal → Bool
  | .dict _ => true
  | _ => false

/-- Python `isinstance(v, list)`. -/
def pyIsList : PyVal → Bool
  | .list _ => true
  | _ => false

/-- Python `isinstance(v, (int, float))`. -/
def pyIsNumber : PyVal → Bool
  | .num _ => true
  | _ => false

/-- Python `key in v` for a dict `v` (False on non-dicts). -/
def pyHasKey (v : PyVal) (key : String) : Bool :=
  match v with
  | .dict kvs => kvs.any (fun p => p.1 = key)
  | _ => false

/-- Python `v[key]` for a dict `v`; first binding wins, `PyVal.none` when
absent (the adapters only index keys whose presence they checked). -/
def pyGet (v : PyVal) (key : String) : PyVal :=
  match v with
  | .dict kvs =>
    match kvs.find? (fun p => p.1 = key) with
    | some p => p.2
    | Option.none => PyVal.none
  | _ => PyVal.none

/-- The per-record validation shared verbatim by `PineconeIndex.upsert`
(adapter.py lines 45-56) and `ChromaCollection.upsert` (lines 49-60):
returns the message of the first failing check, or `none` when the record
passes. (Field names are quoted in the source messages; the quotes are
elided here.) -/
def recordError (i : Nat) (v : PyVal) : Option String :=
  if ¬ pyIsDict v then
    some ("Vector at index " ++ toString i ++ " must be a dictionary")
  else if ¬ pyHasKey v "id" then
    some ("Vector at index " ++ toString i ++ " missing id field")
  else if ¬ pyHasKey v "values" then
    some ("Vector at index " ++ toString i ++ " missing values field")
  else if ¬ pyHasKey v "metadata" then
    some ("Vector at index " ++ toString i ++ " missing metadata field")
  else if ¬ pyIsList (pyGet v "values") then
    some ("Vector values at index " ++ toString i ++ " must be a list")
  else
    Option.none

/-- A record is well-formed: a dict carrying id, values and metadata, with
values a list. -/
def recordValid (v : PyVal) : Bool :=
  pyIsDict v && pyHasKey v "id" && pyHasKey v "values" &&
    pyHasKey v "metadata" && pyIsList (pyGet v "values")

/-- The wrapping applied by the `except Exception` clause of both upsert
loops: `Error formatting vector at index {i}: {str(e)}`. -/
def formatErrorMsg (i : Nat) (e : String) : String :=
  "Error formatting vector at index " ++ toString i ++ ": " ++ e

/-- The validation loop of `PineconeIndex.upsert` (adapter.py lines 42-62),
started at index `i`: builds the `formatted_vectors` list of 3-tuples
`(vector["id"], vector["values"], vector["metadata"])`, aborting with the
wrapped `ValidationError` at the first malformed record. -/
def pineconeFormat (i : Nat) : List PyVal → Except BeVecError (List (PyVal × PyVal × PyVal))
  | [] => .ok []
  | v :: rest =>
    match recordError i v with
    | some e => .error (.validationError (formatErrorMsg i e))
    | Option.none =>
      (pineconeFormat (i + 1) rest).map
        (fun ts => (pyGet v "id", pyGet v "values", pyGet v "metadata") :: ts)

/-- Embedding of `PineconeIndex.upsert` (adapter.py lines 28-67). The `.ok` payload is
the `vectors=` argument of the single native `self._index.upsert` call,
issued only after the whole batch validated; `.error` means the method
raised before any provider call. -/
def PineconeIndex.upsert (vectors : List PyVal) :
    Except BeVecError (List (PyVal × PyVal × PyVal)) :=
  if vectors.isEmpty then
    .error (.validationError "Vectors list cannot be empty")
  else
    pineconeFormat 0 vectors

/-- The validation loop of `ChromaCollection.upsert` (adapter.py lines
43-66), started at index `i`: builds the three parallel column lists
`(ids, embeddings, metadatas)`, aborting with the wrapped
`ValidationError` at the first malformed record. -/
def chromaColumns (i : Nat) : List PyVal → Except BeVecError (List PyVal × List PyVal × List PyVal)
  | [] => .ok ([], [], [])
  | v :: rest =>
    match recordError i v with
    | some e => .error (.validationError (formatErrorMsg i e))
    | Option.none =>
      (chromaColumns (i + 1) rest).map
        (fun cols =>
          (pyGet v "id" :: cols.1, pyGet v "values" :: cols.2.1,
            pyGet v "metadata" :: cols.2.2))

/-- Embedding of `ChromaCollection.upsert` (adapter.py lines 29-75). The `.ok` payload
carries the `ids=`, `embeddings=` and `metadatas=` arguments of the single
native `self._collection.add` call; `.error` means the method raised
before any provider call. -/
def ChromaCollection.upsert (vectors : List PyVal) :
    Except BeVecError (List PyVal × List PyVal × List PyVal) :=
  if vectors.isEmpty then
    .error (.validationError "Vectors list cannot be empty")
  else
    chromaColumns 0 vectors

/-- Python `not vector` for a list value (True exactly on the empty list). -/
def pyListEmpty : PyVal → Bool
  | .list xs => xs.isEmpty
  | _ => false

/-- Python `all(isinstance(x, (int, float)) for x in vector)` for a list
value. -/
def pyAllNumbers : PyVal → Bool
  | .list xs => xs.all pyIsNumber
  | _ => false

/-- The shared query-argument validation of `PineconeIndex.query`
(pinecone/adapter.py lines 84-94) and `ChromaCollection.query`
(chroma/adapter.py lines 92-102); both run the identical four checks in
the same order. Returns the raised error, or `none` when validation
passes. -/
def queryValidate (vector : PyVal) (top_k : Int) : Option BeVecError :=
  if ¬ pyIsList vector then
    some (.validationError "Query vector must be a list")
  else if pyListEmpty vector then
    some (.validationError "Query vector cannot be empty")
  else if ¬ pyAllNumbers vector then
    some (.validationError "Query vector must contain only numbers")
  else if top_k < 1 then
    some (.validationError "top_k must be greater than 0")
  else
    Option.none

/-- A match record as returned inside `results["matches"]` by the native
Pinecone query call: id, score and metadata. -/
structure PineconeMatch : Type where
  id : PyVal
  score : ℚ
  metadata : PyVal

/-- Embedding of `PineconeIndex.query` (pinecone/adapter.py lines 69-100). The native
call's response is the explicit `response` parameter (`.error` = the
native call raised, its message wrapped as `VectorOperationError`); on
validation failure the method raises before the provider is called, so
`response` is ignored. On success the native `matches` list is returned
directly. -/
def PineconeIndex.query (vector : PyVal) (top_k : Int)
    (response : Except String (List PineconeMatch)) :
    Except BeVecError (List PineconeMatch) :=
  match queryValidate vector top_k with
  | some e => .error e
  | Option.none =>
    match response with
    | .error m => .error (.vectorOperationError ("Failed to query vectors: " ++ m))
    | .ok ms => .ok ms

/-- A canonical result record built by `ChromaCollection.query`. -/
structure ChromaResult : Type where
  id : PyVal
  metadata : PyVal
  score : ℚ

/-- The result-formatting loop of `ChromaCollection.query` (chroma/adapter.py
lines 111-117): `for i in range(len(results["ids"][0]))`, reading
`metadatas[0][i]` and `distances[0][i]` and setting
`score = 1 - distance`. An out-of-range read (shorter metadata or
distance row) raises an IndexError, reported as the error message. -/
def chromaFormatResults : List PyVal → List PyVal → List ℚ →
    Except String (List ChromaResult)
  | [], _, _ => .ok []
  | _ :: _, [], _ => .error "list index out of range"
  | _ :: _, _ :: _, [] => .error "list index out of range"
  | i :: ids, m :: ms, d :: ds =>
    (chromaFormatResults ids ms ds).map
      (fun rs => { id := i, metadata := m, score := 1 - d } :: rs)

/-- Embedding of `ChromaCollection.query` (chroma/adapter.py lines 77-121). The native
call's response is the explicit `response` parameter carrying the
first-query rows `ids[0]`, `metadatas[0]`, `distances[0]` (`.error` = the
native call raised); on validation failure the method raises before the
provider is called, so `response` is ignored. Any exception inside the
`try` block (native failure or IndexError while formatting) is wrapped as
`VectorOperationError`. -/
def ChromaCollection.query (vector : PyVal) (top_k : Int)
    (response : Except String (List PyVal × List PyVal × List ℚ)) :
    Except BeVecError (List ChromaResult) :=
  match queryValidate vector top_k with
  | some e => .error e
  | Option.none =>
    match response with
    | .error m => .error (.vectorOperationError ("Failed to query vectors: " ++ m))
    | .ok rows =>
      match chromaFormatResults rows.1 rows.2.1 rows.2.2 with
      | .error m => .error (.vectorOperationError ("Failed to query vectors: " ++ m))
      | .ok rs => .ok rs

/-- Outcome of a native SDK call whose result the adapter inspects only
through `try/except`: success, a `ValueError` (the not-found signal the
Chroma adapter recognises), or any other exception. -/
inductive NativeOutcome : Type where
  | ok
  | valueError (msg : String)
  | otherError (msg : String)
deriving DecidableEq, Repr

/-- Embedding of `ChromaClient.delete_collection` (chroma/adapter.py lines 163-183):
empty name raises `ValidationError`; a native `ValueError` (collection
does not exist) is swallowed (`pass`); any other native exception is
wrapped as `ProviderError`. -/
def ChromaClient.delete_collection (name : String) (native : NativeOutcome) :
    Except BeVecError Unit :=
  if name = "" then
    .error (.validationError "Collection name cannot be empty")
  else
    match native with
    | .ok => .ok ()
    | .valueError _ => .ok ()
    | .otherError m => .error (.providerError ("Failed to delete collection: " ++ m))

/-- Embedding of `Pinecone.delete_index` (pinecone/adapter.py lines 191-207): empty name
raises `ValidationError`; the native delete call sits in a bare
`try/except Exception` that wraps EVERY native failure — a not-found
`ValueError` included — as `ProviderError`. -/
def Pinecone.delete_index (name : String) (native : NativeOutcome) :
    Except BeVecError Unit :=
  if name = "" then
    .error (.validationError "Index name cannot be empty")
  else
    match native with
    | .ok => .ok ()
    | .valueError m => .error (.providerError ("Failed to delete index: " ++ m))
    | .otherError m => .error (.providerError ("Failed to delete index: " ++ m))

/-- The `valid_metrics` list of `Pinecone.create_index`
(pinecone/adapter.py line 178). -/
def valid_metrics : List String := ["cosine", "euclidean", "dotproduct"]

/-- Embedding of `Pinecone.create_index` (pinecone/adapter.py lines 155-189): validates
name, dimension and metric in order; the `.ok` payload is the
`(name, dimension, metric)` argument triple of the single native
`create_index` call issued after validation (a native failure would then
be wrapped as `ProviderError`, not `ValidationError`). -/
def Pinecone.create_index (name : String) (dimension : Int) (metric : String) :
    Except BeVecError (String × Int × String) :=
  if name = "" then
    .error (.validationError "Index name cannot be empty")
  else if dimension < 1 then
    .error (.validationError "Dimension must be greater than 0")
  else if metric ∉ valid_metrics then
    .error (.validationError ("Metric must be one of: " ++ String.intercalate ", " valid_metrics))
  else
    .ok (name, dimension, metric)

/-- Error kinds of the built-in exceptions raised by `core/registry.py`:
`KeyError` from `ProviderRegistry.get`, `ValueError` from `get_provider`. -/
inductive RegistryError : Type where
  | keyError (msg : String)
  | valueError (msg : String)
deriving DecidableEq, Repr

/-- Python dict insertion `d[k] = v` on an association list kept in
insertion order: an existing key keeps its position and gets the new
value, a fresh key is appended. -/
def dictInsert {α : Type} (d : List (String × α)) (k : String) (v : α) :
    List (String × α) :=
  if d.any (fun p => p.1 = k) then
    d.map (fun p => if p.1 = k then (k, v) else p)
  else
    d ++ [(k, v)]

/-- Python dict lookup `d.get(k)` on the association list. -/
def dictGet {α : Type} (d : List (String × α)) (k : String) : Option α :=
  (d.find? (fun p => p.1 = k)).map (fun p => p.2)

/-- Python `list(d.keys())`: keys in insertion order. -/
def dictKeys {α : Type} (d : List (String × α)) : List String :=
  d.map (fun p => p.1)

/-- The state change performed by the decorator returned from
`ProviderRegistry.register(name)` (registry.py lines 14-26):
`self._providers[name] = cls`, name taken case-sensitively as given. -/
def ProviderRegistry.register {α : Type} (d : List (String × α))
    (name : String) (cls : α) : List (String × α) :=
  dictInsert d name cls

/-- Embedding of `ProviderRegistry.get` (registry.py lines 28-42): exact-match lookup,
raising `KeyError` when the name is absent. -/
def ProviderRegistry.get {α : Type} (d : List (String × α)) (name : String) :
    Except RegistryError α :=
  match dictGet d name with
  | Option.none => .error (.keyError ("Provider " ++ name ++ " not found"))
  | some c => .ok c

/-- Python `name.lower()`: character-wise lower-casing (ASCII-faithful,
as provider names are ASCII). -/
def strLower (s : String) : String :=
  ⟨s.data.map Char.toLower⟩

/-- Embedding of `get_provider` (registry.py lines 58-73): lower-cases the name, then
looks it up directly in `registry._providers`, raising `ValueError`
("Unsupported provider") when absent. -/
def get_provider {α : Type} (d : List (String × α)) (name : String) :
    Except RegistryError α :=
  match dictGet d (strLower name) with
  | Option.none => .error (.valueError ("Unsupported provider: " ++ strLower name))
  | some c => .ok c

/-- Embedding of `list_providers` (registry.py lines 75-81):
`list(registry._providers.keys())`. -/
def list_providers {α : Type} (d : List (String × α)) : List String :=
  dictKeys d

/-- Embedding of `get_persist_directory` (chroma/config.py lines 6-12):
`os.getenv("CHROMA_PERSIST_DIRECTORY", "./chroma_db")` — the default
applies only when the variable is UNSET; a variable set to the empty
string is returned as the empty string. -/
def get_persist_directory (env : String → Option String) : String :=
  (env "CHROMA_PERSIST_DIRECTORY").getD "./chroma_db"

/-- The resolution `persist_directory = persist_directory or
get_persist_directory()` in `Chroma.init` (chroma/adapter.py line 208):
an explicit `None` or empty-string argument falls back to
`get_persist_directory`. -/
def Chroma.resolved_persist_directory (arg : Option String)
    (env : String → Option String) : String :=
  match arg with
  | some s => if s = "" then get_persist_directory env else s
  | Option.none => get_persist_directory env

/-- Whether `Chroma.init` (chroma/adapter.py lines 207-210) takes the
`raise ConfigurationError("Persist directory not found")` branch, i.e.
whether the resolved directory is falsy (empty). -/
def Chroma.init_persist_missing (arg : Option String)
    (env : String → Option String) : Bool :=
  Chroma.resolved_persist_directory arg env == ""

/-- Whether `Chroma.PersistentClient` (chroma/adapter.py lines 241-244)
takes its identical `raise ConfigurationError("Persist directory not
found")` branch after `path = path or get_persist_directory()`. -/
def Chroma.persistentClient_path_missing (path : Option String)
    (env : String → Option String) : Bool :=
  (match path with
   | some s => if s = "" then get_persist_directory env else s
   | Option.none => get_persist_directory env) == ""

/-- Index of the first record the shared per-record validation rejects. -/
def firstInvalidIdx : List PyVal → Option Nat
  | [] => Option.none
  | v :: rest =>
    if recordValid v then (firstInvalidIdx rest).map (fun j => j + 1) else some 0

lemma recordError_eq_none_iff (i : Nat) (v : PyVal) :
    recordError i v = Option.none ↔ recordValid v = true := by
  unfold recordError recordValid
  split_ifs with h1 h2 h3 h4 h5 <;> simp_all

lemma pineconeFormat_ok_of_valid : ∀ (l : List PyVal) (i : Nat),
    (∀ v ∈ l, recordValid v = true) →
    pineconeFormat i l =
      .ok (l.map (fun v => (pyGet v "id", pyGet v "values", pyGet v "metadata"))) := by
  intro l
  induction l with
  | nil => intro i _; rfl
  | cons v rest ih =>
    intro i h
    have hv : recordValid v = true := h v (List.mem_cons_self v rest)
    have hrest : ∀ w ∈ rest, recordValid w = true :=
      fun w hw => h w (List.mem_cons_of_mem v hw)
    have hre : recordError i v = Option.none := (recordError_eq_none_iff i v).mpr hv
    simp [pineconeFormat, hre, ih (i + 1) hrest, Except.map]

lemma chromaColumns_ok_of_valid : ∀ (l : List PyVal) (i : Nat),
    (∀ v ∈ l, recordValid v = true) →
    chromaColumns i l =
      .ok (l.map (fun v => pyGet v "id"), l.map (fun v => pyGet v "values"),
        l.map (fun v => pyGet v "metadata")) := by
  intro l
  induction l with
  | nil => intro i _; rfl
  | cons v rest ih =>
    intro i h
    have hv : recordValid v = true := h v (List.mem_cons_self v rest)
    have hrest : ∀ w ∈ rest, recordValid w = true :=
      fun w hw => h w (List.mem_cons_of_mem v hw)
    have hre : recordError i v = Option.none := (recordError_eq_none_iff i v).mpr hv
    simp [chromaColumns, hre, ih (i + 1) hrest, Except.map]

lemma upsertFormat_error_at_first_invalid : ∀ (l : List PyVal) (j i : Nat),
    firstInvalidIdx l = some j →
    ∃ e, pineconeFormat i l = .error (.validationError (formatErrorMsg (i + j) e)) ∧
      chromaColumns i l = .error (.validationError (formatErrorMsg (i + j) e)) := by
  intro l
  induction l with
  | nil => intro j i h; simp [firstInvalidIdx] at h
  | cons v rest ih =>
    intro j i h
    by_cases hv : recordValid v = true
    · simp only [firstInvalidIdx, if_pos hv] at h
      obtain ⟨j', hj', hjeq⟩ := Option.map_eq_some'.mp h
      subst hjeq
      obtain ⟨e, hp, hc⟩ := ih j' (i + 1) hj'
      have harith : i + 1 + j' = i + (j' + 1) := by omega
      rw [harith] at hp hc
      have hre : recordError i v = Option.none := (recordError_eq_none_iff i v).mpr hv
      exact ⟨e, by simp [pineconeFormat, hre, hp, Except.map],
        by simp [chromaColumns, hre, hc, Except.map]⟩
    · simp only [firstInvalidIdx, if_neg hv] at h
      obtain rfl : (0 : Nat) = j := Option.some.inj h
      have hne : recordError i v ≠ Option.none :=
        fun hn => hv ((recordError_eq_none_iff i v).mp hn)
      obtain ⟨e, he⟩ := Option.ne_none_iff_exists'.mp hne
      exact ⟨e, by simp [pineconeFormat, he],
        by simp [chromaColumns, he]⟩

lemma firstInvalidIdx_eq_none_iff : ∀ l : List PyVal,
    firstInvalidIdx l = Option.none ↔ ∀ v ∈ l, recordValid v = true := by
  intro l
  induction l with
  | nil => simp [firstInvalidIdx]
  | cons v rest ih =>
    by_cases hv : recordValid v = true <;>
      simp [firstInvalidIdx, hv, ih, Option.map_eq_none']

lemma isEmpty_false_of_ne_nil {l : List PyVal} (h : l ≠ []) : l.isEmpty = false := by
  cases l with
  | nil => exact absurd rfl h
  | cons a l => rfl

/-- Claim C1: on a malformed batch — empty, or containing a record that is
not a dict or misses id/values/metadata or has non-list values — both
adapters' `upsert` raise `ValidationError` at the first offending record,
the message naming that record's index (`formatErrorMsg j e` embeds
`toString j`), and issue zero provider calls (`.error` = no native call);
the single native call (`.ok`) happens only once every record validated. -/
theorem upsert_validates_batch_before_any_provider_call :
    ∀ vectors : List PyVal,
      (vectors = [] →
        PineconeIndex.upsert vectors =
          .error (.validationError "Vectors list cannot be empty") ∧
        ChromaCollection.upsert vectors =
          .error (.validationError "Vectors list cannot be empty")) ∧
      (∀ j, firstInvalidIdx vectors = some j →
        ∃ e, PineconeIndex.upsert vectors =
            .error (.validationError (formatErrorMsg j e)) ∧
          ChromaCollection.upsert vectors =
            .error (.validationError (formatErrorMsg j e))) ∧
      (vectors ≠ [] → firstInvalidIdx vectors = Option.none →
        (∃ p, PineconeIndex.upsert vectors = .ok p) ∧
        (∃ c, ChromaCollection.upsert vectors = .ok c)) := by
  intro vectors
  refine ⟨?_, ?_, ?_⟩
  · rintro rfl
    exact ⟨rfl, rfl⟩
  · intro j hj
    have hne : vectors ≠ [] := by
      rintro rfl; simp [firstInvalidIdx] at hj
    have hie := isEmpty_false_of_ne_nil hne
    obtain ⟨e, hp, hc⟩ := upsertFormat_error_at_first_invalid vectors j 0 hj
    rw [Nat.zero_add] at hp hc
    exact ⟨e, by simp [PineconeIndex.upsert, hie, hp],
      by simp [ChromaCollection.upsert, hie, hc]⟩
  · intro hne hnone
    have hall := (firstInvalidIdx_eq_none_iff vectors).mp hnone
    have hie := isEmpty_false_of_ne_nil hne
    refine ⟨⟨vectors.map (fun v => (pyGet v "id", pyGet v "values", pyGet v "metadata")), ?_⟩,
      ⟨(vectors.map (fun v => pyGet v "id"), vectors.map (fun v => pyGet v "values"),
        vectors.map (fun v => pyGet v "metadata")), ?_⟩⟩
    · simp [PineconeIndex.upsert, hie, pineconeFormat_ok_of_valid vectors 0 hall]
    · simp [ChromaCollection.upsert, hie, chromaColumns_ok_of_valid vectors 0 hall]

/-- Witness for C1: the empty batch, a batch whose record 0 misses
`values`, and a valid single-record batch, evaluated concretely. -/
theorem upsert_validates_batch_before_any_provider_call_witness :
    (PineconeIndex.upsert [] =
        .error (.validationError "Vectors list cannot be empty") ∧
      ChromaCollection.upsert [] =
        .error (.validationError "Vectors list cannot be empty")) ∧
    (∃ e, PineconeIndex.upsert [PyVal.dict [("id", PyVal.str "1")]] =
          .error (.validationError (formatErrorMsg 0 e)) ∧
        ChromaCollection.upsert [PyVal.dict [("id", PyVal.str "1")]] =
          .error (.validationError (formatErrorMsg 0 e))) ∧
    ((∃ p, PineconeIndex.upsert
        [PyVal.dict [("id", PyVal.str "1"), ("values", PyVal.list [PyVal.num 1]),
          ("metadata", PyVal.dict [])]] = .ok p) ∧
      (∃ c, ChromaCollection.upsert
        [PyVal.dict [("id", PyVal.str "1"), ("values", PyVal.list [PyVal.num 1]),
          ("metadata", PyVal.dict [])]] = .ok c)) :=
  ⟨(upsert_validates_batch_before_any_provider_call []).1 rfl,
    (upsert_validates_batch_before_any_provider_call
      [PyVal.dict [("id", PyVal.str "1")]]).2.1 0 (by decide),
    (upsert_validates_batch_before_any_provider_call
      [PyVal.dict [("id", PyVal.str "1"), ("values", PyVal.list [PyVal.num 1]),
        ("metadata", PyVal.dict [])]]).2.2 (by simp) (by decide)⟩

/-- Claim C7: on a valid batch the Pinecone adapter issues exactly one
native upsert call whose argument is the in-order list of 3-tuples
`(id, values, metadata)`, and the Chroma adapter issues exactly one
native add call with three parallel, equal-length columns whose i-th
entries come from the i-th record (each column is the map of the
respective field over the batch). -/
theorem upsert_native_call_shape (vectors : List PyVal)
    (hne : vectors ≠ []) (hv : ∀ v ∈ vectors, recordValid v = true) :
    PineconeIndex.upsert vectors =
      .ok (vectors.map (fun v => (pyGet v "id", pyGet v "values", pyGet v "metadata"))) ∧
    ChromaCollection.upsert vectors =
      .ok (vectors.map (fun v => pyGet v "id"), vectors.map (fun v => pyGet v "values"),
        vectors.map (fun v => pyGet v "metadata")) ∧
    (vectors.map (fun v => pyGet v "id")).length = vectors.length ∧
    (vectors.map (fun v => pyGet v "values")).length = vectors.length ∧
    (vectors.map (fun v => pyGet v "metadata")).length = vectors.length := by
  have hie := isEmpty_false_of_ne_nil hne
  refine ⟨?_, ?_, ?_, ?_, ?_⟩
  · simp [PineconeIndex.upsert, hie, pineconeFormat_ok_of_valid vectors 0 hv]
  · simp [ChromaCollection.upsert, hie, chromaColumns_ok_of_valid vectors 0 hv]
  all_goals simp

/-- Witness for C7: the repository's own two-record test batch
(tests/test_vector_clients.py). -/
theorem upsert_native_call_shape_witness :
    PineconeIndex.upsert
        [PyVal.dict [("id", PyVal.str "1"),
            ("values", PyVal.list [PyVal.num (1/10), PyVal.num (2/10), PyVal.num (3/10)]),
            ("metadata", PyVal.dict [("text", PyVal.str "test1")])],
          PyVal.dict [("id", PyVal.str "2"),
            ("values", PyVal.list [PyVal.num (4/10), PyVal.num (5/10), PyVal.num (6/10)]),
            ("metadata", PyVal.dict [("text", PyVal.str "test2")])]] =
      .ok ([PyVal.dict [("id", PyVal.str "1"),
            ("values", PyVal.list [PyVal.num (1/10), PyVal.num (2/10), PyVal.num (3/10)]),
            ("metadata", PyVal.dict [("text", PyVal.str "test1")])],
          PyVal.dict [("id", PyVal.str "2"),
            ("values", PyVal.list [PyVal.num (4/10), PyVal.num (5/10), PyVal.num (6/10)]),
            ("metadata", PyVal.dict [("text", PyVal.str "test2")])]].map
        (fun v => (pyGet v "id", pyGet v "values", pyGet v "metadata"))) ∧
    ChromaCollection.upsert
        [PyVal.dict [("id", PyVal.str "1"),
            ("values", PyVal.list [PyVal.num (1/10), PyVal.num (2/10), PyVal.num (3/10)]),
            ("metadata", PyVal.dict [("text", PyVal.str "test1")])],
          PyVal.dict [("id", PyVal.str "2"),
            ("values", PyVal.list [PyVal.num (4/10), PyVal.num (5/10), PyVal.num (6/10)]),
            ("metadata", PyVal.dict [("text", PyVal.str "test2")])]] =
      .ok ([PyVal.dict [("id", PyVal.str "1"),
            ("values", PyVal.list [PyVal.num (1/10), PyVal.num (2/10), PyVal.num (3/10)]),
            ("metadata", PyVal.dict [("text", PyVal.str "test1")])],
          PyVal.dict [("id", PyVal.str "2"),
            ("values", PyVal.list [PyVal.num (4/10), PyVal.num (5/10), PyVal.num (6/10)]),
            ("metadata", PyVal.dict [("text", PyVal.str "test2")])]].map
          (fun v => pyGet v "id"),
        [PyVal.dict [("id", PyVal.str "1"),
            ("values", PyVal.list [PyVal.num (1/10), PyVal.num (2/10), PyVal.num (3/10)]),
            ("metadata", PyVal.dict [("text", PyVal.str "test1")])],
          PyVal.dict [("id", PyVal.str "2"),
            ("values", PyVal.list [PyVal.num (4/10), PyVal.num (5/10), PyVal.num (6/10)]),
            ("metadata", PyVal.dict [("text", PyVal.str "test2")])]].map
          (fun v => pyGet v "values"),
        [PyVal.dict [("id", PyVal.str "1"),
            ("values", PyVal.list [PyVal.num (1/10), PyVal.num (2/10), PyVal.num (3/10)]),
            ("metadata", PyVal.dict [("text", PyVal.str "test1")])],
          PyVal.dict [("id", PyVal.str "2"),
            ("values", PyVal.list [PyVal.num (4/10), PyVal.num (5/10), PyVal.num (6/10)]),
            ("metadata", PyVal.dict [("text", PyVal.str "test2")])]].map
          (fun v => pyGet v "metadata")) :=
  ⟨(upsert_native_call_shape _ (by simp) (by decide)).1,
    (upsert_native_call_shape _ (by simp) (by decide)).2.1⟩

/-- Returns `true` exactly when the call raised a `ValidationError`. -/
def isValidationErr {β : Type} : Except BeVecError β → Bool
  | .error (.validationError _) => true
  | _ => false

lemma queryValidate_cases (vector : PyVal) (top_k : Int) :
    queryValidate vector top_k = Option.none ∨
      ∃ m, queryValidate vector top_k = some (.validationError m) := by
  unfold queryValidate
  split_ifs <;> first | exact Or.inl rfl | exact Or.inr ⟨_, rfl⟩

lemma queryValidate_ne_none_of_invalid (vector : PyVal) (top_k : Int)
    (h : pyIsList vector = false ∨ pyListEmpty vector = true ∨
      pyAllNumbers vector = false ∨ top_k < 1) :
    queryValidate vector top_k ≠ Option.none := by
  unfold queryValidate
  split_ifs with h1 h2 h3 h4 <;> simp_all

lemma queryValidate_some_of_invalid (vector : PyVal) (top_k : Int)
    (h : pyIsList vector = false ∨ pyListEmpty vector = true ∨
      pyAllNumbers vector = false ∨ top_k < 1) :
    ∃ m, queryValidate vector top_k = some (.validationError m) := by
  rcases queryValidate_cases vector top_k with hn | hs
  · exact absurd hn (queryValidate_ne_none_of_invalid vector top_k h)
  · exact hs

/-- Claim C5: a query whose vector is not a list, is empty, or contains a
non-number element, or whose `top_k` is below 1, raises `ValidationError`
on both adapters, and the outcome is independent of the provider response
(no native call is issued). -/
theorem query_rejects_invalid_arguments (vector : PyVal) (top_k : Int)
    (r : Except String (List PineconeMatch))
    (rc : Except String (List PyVal × List PyVal × List ℚ))
    (h : pyIsList vector = false ∨ pyListEmpty vector = true ∨
      pyAllNumbers vector = false ∨ top_k < 1) :
    isValidationErr (PineconeIndex.query vector top_k r) = true ∧
    isValidationErr (ChromaCollection.query vector top_k rc) = true ∧
    PineconeIndex.query vector top_k r =
      PineconeIndex.query vector top_k (.error "") ∧
    ChromaCollection.query vector top_k rc =
      ChromaCollection.query vector top_k (.error "") := by
  obtain ⟨m, hm⟩ := queryValidate_some_of_invalid vector top_k h
  refine ⟨?_, ?_, ?_, ?_⟩ <;>
    simp [PineconeIndex.query, ChromaCollection.query, hm, isValidationErr]

/-- Witness for C5: a non-list query vector and a valid vector with
`top_k = 0`, on both adapters, with concrete provider responses. -/
theorem query_rejects_invalid_arguments_witness :
    (isValidationErr (PineconeIndex.query (PyVal.str "x") 5 (.ok [])) = true ∧
      isValidationErr (ChromaCollection.query (PyVal.str "x") 5
        (.ok ([], [], []))) = true) ∧
    (isValidationErr (PineconeIndex.query (PyVal.list [PyVal.num 1]) 0 (.ok [])) = true ∧
      isValidationErr (ChromaCollection.query (PyVal.list [PyVal.num 1]) 0
        (.ok ([], [], []))) = true) :=
  ⟨⟨(query_rejects_invalid_arguments (PyVal.str "x") 5 (.ok []) (.ok ([], [], []))
        (Or.inl (by decide))).1,
      (query_rejects_invalid_arguments (PyVal.str "x") 5 (.ok []) (.ok ([], [], []))
        (Or.inl (by decide))).2.1⟩,
    ⟨(query_rejects_invalid_arguments (PyVal.list [PyVal.num 1]) 0 (.ok [])
        (.ok ([], [], [])) (Or.inr (Or.inr (Or.inr (by decide))))).1,
      (query_rejects_invalid_arguments (PyVal.list [PyVal.num 1]) 0 (.ok [])
        (.ok ([], [], [])) (Or.inr (Or.inr (Or.inr (by decide))))).2.1⟩⟩

lemma chromaFormatResults_spec : ∀ (ids metas : List PyVal) (dists : List ℚ),
    ids.length = metas.length → metas.length = dists.length →
    ∃ rs, chromaFormatResults ids metas dists = .ok rs ∧
      rs.length = ids.length ∧
      rs.map ChromaResult.id = ids ∧
      rs.map ChromaResult.metadata = metas ∧
      rs.map ChromaResult.score = dists.map (fun d => 1 - d) := by
  intro ids
  induction ids with
  | nil =>
    intro metas dists h1 h2
    obtain rfl : metas = [] := List.length_eq_zero.mp h1.symm
    obtain rfl : dists = [] := List.length_eq_zero.mp h2.symm
    exact ⟨[], rfl, rfl, rfl, rfl, rfl⟩
  | cons i ids ih =>
    intro metas dists h1 h2
    cases metas with
    | nil => simp at h1
    | cons m ms =>
      cases dists with
      | nil => simp at h2
      | cons d ds =>
        simp only [List.length_cons, Nat.succ.injEq] at h1 h2
        obtain ⟨rs, hok, hlen, hid, hmeta, hscore⟩ := ih ms ds h1 h2
        refine ⟨{ id := i, metadata := m, score := 1 - d } :: rs, ?_, ?_, ?_, ?_, ?_⟩
        · simp [chromaFormatResults, hok, Except.map]
        · simp [hlen]
        · simp [hid]
        · simp [hmeta]
        · simp [hscore]

/-- Claim C3: for every match returned by the Chroma provider on a valid
query, `ChromaCollection.query` sets the canonical score to
`1 - distance`, applying the formula uncorrected to out-of-range
distances as well. -/
theorem chroma_query_score_is_one_minus_distance (vector : PyVal) (top_k : Int)
    (ids metas : List PyVal) (dists : List ℚ)
    (hvalid : queryValidate vector top_k = Option.none)
    (h1 : ids.length = metas.length) (h2 : metas.length = dists.length) :
    ∃ rs, ChromaCollection.query vector top_k (.ok (ids, metas, dists)) = .ok rs ∧
      rs.map ChromaResult.score = dists.map (fun d => 1 - d) ∧
      rs.map ChromaResult.id = ids ∧
      rs.map ChromaResult.metadata = metas := by
  obtain ⟨rs, hok, _, hid, hmeta, hscore⟩ := chromaFormatResults_spec ids metas dists h1 h2
  exact ⟨rs, by simp [ChromaCollection.query, hvalid, hok], hscore, hid, hmeta⟩

/-- Witness for C3: a provider distance of 1/10 yields score exactly 9/10,
and the out-of-range distance 3 passes through as score -2. -/
theorem chroma_query_score_is_one_minus_distance_witness :
    ∃ rs, ChromaCollection.query (PyVal.list [PyVal.num (1/10)]) 2
        (.ok ([PyVal.str "1", PyVal.str "2"],
          [PyVal.dict [], PyVal.dict []], [1/10, 3])) = .ok rs ∧
      rs.map ChromaResult.score = [9/10, -2] := by
  obtain ⟨rs, hok, hscore, _, _⟩ :=
    chroma_query_score_is_one_minus_distance (PyVal.list [PyVal.num (1/10)]) 2
      [PyVal.str "1", PyVal.str "2"] [PyVal.dict [], PyVal.dict []] [1/10, 3]
      (by decide) (by decide) (by decide)
  refine ⟨rs, hok, ?_⟩
  rw [hscore]
  norm_num

/-- Claim C6: on a valid query, when the provider returns at most `top_k`
matches, each adapter returns exactly those matches without error, so the
canonical result sequence has length ≤ `top_k`; fewer than `top_k`
matches is not an error. -/
theorem query_result_length_at_most_top_k (vector : PyVal) (top_k : Int)
    (hvalid : queryValidate vector top_k = Option.none)
    (ms : List PineconeMatch) (ids metas : List PyVal) (dists : List ℚ)
    (hm : (ms.length : Int) ≤ top_k)
    (h1 : ids.length = metas.length) (h2 : metas.length = dists.length)
    (hc : (ids.length : Int) ≤ top_k) :
    (PineconeIndex.query vector top_k (.ok ms) = .ok ms ∧
      ((ms.length : Int) ≤ top_k)) ∧
    (∃ rs, ChromaCollection.query vector top_k (.ok (ids, metas, dists)) = .ok rs ∧
      rs.length = ids.length ∧ (rs.length : Int) ≤ top_k) := by
  obtain ⟨rs, hok, hlen, _, _, _⟩ := chromaFormatResults_spec ids metas dists h1 h2
  refine ⟨⟨?_, hm⟩, rs, ?_, hlen, by rw [hlen]; exact hc⟩
  · simp [PineconeIndex.query, hvalid]
  · simp [ChromaCollection.query, hvalid, hok]

/-- Witness for C6: a valid query with `top_k = 10` answered by a single
match on each provider — fewer than `top_k`, returned as-is. -/
theorem query_result_length_at_most_top_k_witness :
    (PineconeIndex.query (PyVal.list [PyVal.num 1]) 10
        (.ok [{ id := PyVal.str "1", score := 9/10, metadata := PyVal.dict [] }]) =
      .ok [{ id := PyVal.str "1", score := 9/10, metadata := PyVal.dict [] }] ∧
      ((1 : Int) ≤ 10)) ∧
    (∃ rs, ChromaCollection.query (PyVal.list [PyVal.num 1]) 10
        (.ok ([PyVal.str "1"], [PyVal.dict []], [1/10])) = .ok rs ∧
      rs.length = 1 ∧ ((rs.length : Int) ≤ 10)) := by
  have h := query_result_length_at_most_top_k (PyVal.list [PyVal.num 1]) 10
    (by decide) [{ id := PyVal.str "1", score := 9/10, metadata := PyVal.dict [] }]
    [PyVal.str "1"] [PyVal.dict []] [1/10]
    (by decide) (by decide) (by decide) (by decide)
  obtain ⟨⟨hp, _⟩, rs, hok, hlen, hle⟩ := h
  exact ⟨⟨hp, by decide⟩, rs, hok, hlen, by rw [hlen]; decide⟩

/-- Claim C2, counterexample: with a non-empty index name and an
underlying delete that fails with a not-found `ValueError`,
`Pinecone.delete_index` raises `ProviderError` instead of returning
normally — the bare `except Exception` of adapter.py lines 204-207 wraps
every native failure, not-found included. -/
theorem pinecone_delete_index_not_found_raises :
    Pinecone.delete_index "my-index" (NativeOutcome.valueError "Index my-index not found") =
      .error (.providerError "Failed to delete index: Index my-index not found") ∧
    Pinecone.delete_index "my-index" (NativeOutcome.valueError "Index my-index not found") ≠
      .ok () := by
  refine ⟨rfl, ?_⟩
  intro h
  simp [Pinecone.delete_index] at h

/-- Claim C2, amended: for every non-empty name, `ChromaClient.delete_collection`
returns normally when the provider signals not-found with a `ValueError`
(and on native success), while `Pinecone.delete_index` wraps any native
failure — a not-found condition included — as `ProviderError`. -/
theorem delete_nonexistent_idempotent_chroma_only (name m : String)
    (h : name ≠ "") :
    ChromaClient.delete_collection name (NativeOutcome.valueError m) = .ok () ∧
    ChromaClient.delete_collection name NativeOutcome.ok = .ok () ∧
    Pinecone.delete_index name (NativeOutcome.valueError m) =
      .error (.providerError ("Failed to delete index: " ++ m)) := by
  refine ⟨?_, ?_, ?_⟩ <;>
    simp [ChromaClient.delete_collection, Pinecone.delete_index, h]

/-- Witness for the amended C2: deleting the nonexistent collection or
index "missing" with a concrete not-found signal. -/
theorem delete_nonexistent_idempotent_chroma_only_witness :
    ChromaClient.delete_collection "missing" (NativeOutcome.valueError "Collection missing does not exist") = .ok () ∧
    ChromaClient.delete_collection "missing" NativeOutcome.ok = .ok () ∧
    Pinecone.delete_index "missing" (NativeOutcome.valueError "Collection missing does not exist") =
      .error (.providerError ("Failed to delete index: " ++ "Collection missing does not exist")) :=
  delete_nonexistent_idempotent_chroma_only "missing"
    "Collection missing does not exist" (by decide)

/-- Claim C9: with a non-empty name and dimension ≥ 1,
`Pinecone.create_index` raises `ValidationError` exactly when the metric
is outside `{cosine, euclidean, dotproduct}`; a metric in that set passes
validation and the native create-index call is issued with the given
name, dimension and metric. -/
theorem create_index_metric_validation (name : String) (dimension : Int)
    (metric : String) (hname : name ≠ "") (hdim : 1 ≤ dimension) :
    ((∃ m, Pinecone.create_index name dimension metric =
        .error (.validationError m)) ↔ metric ∉ valid_metrics) ∧
    (metric ∈ valid_metrics →
      Pinecone.create_index name dimension metric = .ok (name, dimension, metric)) := by
  have hd : ¬ dimension < 1 := by omega
  constructor
  · constructor
    · rintro ⟨m, hm⟩ hmem
      simp [Pinecone.create_index, hname, hd, hmem] at hm
    · intro hmem
      exact ⟨"Metric must be one of: " ++ String.intercalate ", " valid_metrics,
        by simp [Pinecone.create_index, hname, hd, hmem]⟩
  · intro hmem
    simp [Pinecone.create_index, hname, hd, hmem]

/-- Witness for C9: "cosine" is accepted and the call carries
("test-index", 3, "cosine"); "manhattan" is rejected with
`ValidationError`. -/
theorem create_index_metric_validation_witness :
    Pinecone.create_index "test-index" 3 "cosine" = .ok ("test-index", 3, "cosine") ∧
    (∃ m, Pinecone.create_index "test-index" 3 "manhattan" =
      .error (.validationError m)) :=
  ⟨(create_index_metric_validation "test-index" 3 "cosine" (by decide) (by decide)).2
      (by decide),
    ((create_index_metric_validation "test-index" 3 "manhattan" (by decide) (by decide)).1).mpr
      (by decide)⟩

lemma dictGet_map_update {α : Type} : ∀ (d : List (String × α)) (k : String) (v : α),
    d.any (fun p => p.1 = k) = true →
    dictGet (d.map (fun p => if p.1 = k then (k, v) else p)) k = some v := by
  intro d k v
  induction d with
  | nil => intro h; simp at h
  | cons a d ih =>
    intro h
    by_cases hak : a.1 = k
    · simp [dictGet, List.find?_cons, hak]
    · simp only [List.any_cons, Bool.or_eq_true, decide_eq_true_eq] at h
      rcases h with h | h
      · exact absurd h hak
      · simpa [dictGet, List.find?_cons, hak] using ih h

lemma dictGet_append_single {α : Type} : ∀ (d : List (String × α)) (k : String) (v : α),
    d.any (fun p => p.1 = k) = false →
    dictGet (d ++ [(k, v)]) k = some v := by
  intro d k v
  induction d with
  | nil => intro _; simp [dictGet, List.find?_cons]
  | cons a d ih =>
    intro h
    simp only [List.any_cons, Bool.or_eq_false_iff, decide_eq_false_iff_not] at h
    simpa [dictGet, List.find?_cons, h.1] using ih h.2

lemma dictGet_insert_self {α : Type} (d : List (String × α)) (k : String) (v : α) :
    dictGet (dictInsert d k v) k = some v := by
  unfold dictInsert
  by_cases h : d.any (fun p => p.1 = k) = true
  · rw [if_pos h]
    exact dictGet_map_update d k v h
  · rw [if_neg h]
    exact dictGet_append_single d k v (Bool.eq_false_iff.mpr h)

lemma mem_keys_of_dictGet {α : Type} : ∀ (d : List (String × α)) (k : String) (c : α),
    dictGet d k = some c → k ∈ dictKeys d := by
  intro d k c
  induction d with
  | nil => intro h; simp [dictGet] at h
  | cons a d ih =>
    intro h
    by_cases hak : a.1 = k
    · simp [dictKeys, hak]
    · have h' : dictGet d k = some c := by
        rw [dictGet] at h ⊢
        rwa [List.find?_cons_of_neg _ (by simp [hak])] at h
      have hmem := ih h'
      simp only [dictKeys, List.map_cons, List.mem_cons]
      exact Or.inr (by simpa [dictKeys] using hmem)

lemma any_key_iff_mem_keys {α : Type} (d : List (String × α)) (k : String) :
    d.any (fun p => p.1 = k) = true ↔ k ∈ dictKeys d := by
  simp only [List.any_eq_true, decide_eq_true_eq, dictKeys, List.mem_map]

lemma dictKeys_insert {α : Type} (d : List (String × α)) (k : String) (v : α) :
    dictKeys (dictInsert d k v) =
      if k ∈ dictKeys d then dictKeys d else dictKeys d ++ [k] := by
  unfold dictInsert
  by_cases h : d.any (fun p => p.1 = k) = true
  · rw [if_pos h, if_pos ((any_key_iff_mem_keys d k).mp h)]
    unfold dictKeys
    rw [List.map_map]
    refine List.map_congr_left ?_
    intro p _
    by_cases hp : p.1 = k
    · simp [hp]
    · simp [hp]
  · rw [if_neg h, if_neg (fun hm => h ((any_key_iff_mem_keys d k).mpr hm))]
    simp [dictKeys]

/-- Claim C4: `get_provider` lower-cases the name before lookup (so
"PINECONE" and "pinecone" resolve identically), raising `ValueError`
("Unsupported provider") when the lower-cased name is unregistered,
whereas `ProviderRegistry.get` is an exact-match lookup raising the
distinct `KeyError` for an absent name. -/
theorem get_provider_case_insensitive_with_distinct_errors {α : Type}
    (d : List (String × α)) (name : String) :
    get_provider d "PINECONE" = get_provider d "pinecone" ∧
    (dictGet d (strLower name) = Option.none →
      get_provider d name =
        .error (.valueError ("Unsupported provider: " ++ strLower name))) ∧
    (∀ c, dictGet d (strLower name) = some c → get_provider d name = .ok c) ∧
    (dictGet d name = Option.none →
      ProviderRegistry.get d name =
        .error (.keyError ("Provider " ++ name ++ " not found"))) ∧
    (∀ c, dictGet d name = some c → ProviderRegistry.get d name = .ok c) := by
  refine ⟨?_, ?_, ?_, ?_, ?_⟩
  · have h : strLower "PINECONE" = strLower "pinecone" := by decide
    simp [get_provider, h]
  · intro h; simp [get_provider, h]
  · intro c h; simp [get_provider, h]
  · intro h; simp [ProviderRegistry.get, h]
  · intro c h; simp [ProviderRegistry.get, h]

/-- Witness for C4: against the registry holding only "pinecone",
`get_provider "PINECONE"` resolves, while "nonexistent" draws
`ValueError` from `get_provider` and `KeyError` from
`ProviderRegistry.get`. -/
theorem get_provider_case_insensitive_with_distinct_errors_witness :
    get_provider [("pinecone", (0 : Nat))] "PINECONE" = .ok 0 ∧
    get_provider [("pinecone", (0 : Nat))] "nonexistent" =
      .error (.valueError ("Unsupported provider: " ++ strLower "nonexistent")) ∧
    ProviderRegistry.get [("pinecone", (0 : Nat))] "nonexistent" =
      .error (.keyError ("Provider " ++ "nonexistent" ++ " not found")) :=
  ⟨(get_provider_case_insensitive_with_distinct_errors
      [("pinecone", (0 : Nat))] "PINECONE").2.2.1 0 (by decide),
    (get_provider_case_insensitive_with_distinct_errors
      [("pinecone", (0 : Nat))] "nonexistent").2.1 (by decide),
    (get_provider_case_insensitive_with_distinct_errors
      [("pinecone", (0 : Nat))] "nonexistent").2.2.2.1 (by decide)⟩

/-- Claim C8: re-registering an already-registered name overwrites the
association in place — a later `ProviderRegistry.get` returns the most
recent type and exactly one entry carries the name — and `list_providers`
returns all names in registration order (a fresh name is appended, an
overwrite leaves the order unchanged). -/
theorem register_overwrites_and_preserves_order {α : Type}
    (d : List (String × α)) (name : String) (c1 c2 : α) :
    ProviderRegistry.get
        (ProviderRegistry.register (ProviderRegistry.register d name c1) name c2)
        name = .ok c2 ∧
    ((dictKeys d).Nodup →
      (dictKeys (ProviderRegistry.register
        (ProviderRegistry.register d name c1) name c2)).count name = 1) ∧
    list_providers (ProviderRegistry.register
        (ProviderRegistry.register d name c1) name c2) =
      list_providers (ProviderRegistry.register d name c1) ∧
    (name ∉ dictKeys d →
      list_providers (ProviderRegistry.register d name c1) =
        list_providers d ++ [name]) ∧
    (name ∈ dictKeys d →
      list_providers (ProviderRegistry.register d name c1) = list_providers d) := by
  simp only [ProviderRegistry.register, list_providers]
  have hmem1 : name ∈ dictKeys (dictInsert d name c1) :=
    mem_keys_of_dictGet _ name c1 (dictGet_insert_self d name c1)
  have hkeys2 : dictKeys (dictInsert (dictInsert d name c1) name c2) =
      dictKeys (dictInsert d name c1) := by
    rw [dictKeys_insert, if_pos hmem1]
  refine ⟨?_, ?_, ?_, ?_, ?_⟩
  · simp [ProviderRegistry.get, dictGet_insert_self]
  · intro hnodup
    rw [hkeys2, dictKeys_insert]
    by_cases hmem : name ∈ dictKeys d
    · rw [if_pos hmem]
      exact List.count_eq_one_of_mem hnodup hmem
    · rw [if_neg hmem]
      simp [List.count_append, List.count_eq_zero_of_not_mem hmem]
  · exact hkeys2
  · intro hmem
    rw [dictKeys_insert, if_neg hmem]
  · intro hmem
    rw [dictKeys_insert, if_pos hmem]

/-- Witness for C8: registering "pinecone" twice in an empty registry
leaves one entry mapping to the later type, listed once. -/
theorem register_overwrites_and_preserves_order_witness :
    ProviderRegistry.get
        (ProviderRegistry.register
          (ProviderRegistry.register ([] : List (String × Nat)) "pinecone" 0)
          "pinecone" 1) "pinecone" = .ok 1 ∧
    (dictKeys (ProviderRegistry.register
        (ProviderRegistry.register ([] : List (String × Nat)) "pinecone" 0)
        "pinecone" 1)).count "pinecone" = 1 ∧
    list_providers (ProviderRegistry.register ([] : List (String × Nat)) "pinecone" 0) =
      list_providers ([] : List (String × Nat)) ++ ["pinecone"] :=
  ⟨(register_overwrites_and_preserves_order ([] : List (String × Nat)) "pinecone" 0 1).1,
    (register_overwrites_and_preserves_order
      ([] : List (String × Nat)) "pinecone" 0 1).2.1 (by decide),
    (register_overwrites_and_preserves_order
      ([] : List (String × Nat)) "pinecone" 0 1).2.2.2.1 (by decide)⟩

/-- An environment in which CHROMA_PERSIST_DIRECTORY is set to the empty
string (set-but-empty, not unset). -/
def envPersistEmpty : String → Option String :=
  fun k => if k = "CHROMA_PERSIST_DIRECTORY" then some "" else Option.none

/-- Claim C10, counterexample: with CHROMA_PERSIST_DIRECTORY set to the
empty string, `get_persist_directory` returns the empty string (the
`os.getenv` default applies only when the variable is unset), so the
"Persist directory not found" branch of both `Chroma.init` and
`Chroma.PersistentClient` is reached with a `None` explicit argument. -/
theorem chroma_persist_not_found_branch_reachable :
    get_persist_directory envPersistEmpty = "" ∧
    Chroma.init_persist_missing Option.none envPersistEmpty = true ∧
    Chroma.persistentClient_path_missing Option.none envPersistEmpty = true := by
  refine ⟨?_, ?_, ?_⟩ <;> decide

/-- Claim C10, amended: the "Persist directory not found" branch of
`Chroma.init` and `Chroma.PersistentClient` is taken exactly when the
explicit argument is `None` or empty AND the environment variable is set
to the empty string; whenever CHROMA_PERSIST_DIRECTORY is unset or
non-empty the branch is unreachable (`get_persist_directory` then falls
back to "./chroma_db" or returns the non-empty value). -/
theorem chroma_persist_branch_characterization (arg : Option String)
    (env : String → Option String) :
    (Chroma.init_persist_missing arg env = true ↔
      ((arg = Option.none ∨ arg = some "") ∧
        env "CHROMA_PERSIST_DIRECTORY" = some "")) ∧
    (Chroma.persistentClient_path_missing arg env = true ↔
      ((arg = Option.none ∨ arg = some "") ∧
        env "CHROMA_PERSIST_DIRECTORY" = some "")) := by
  have hget : get_persist_directory env = "" ↔
      env "CHROMA_PERSIST_DIRECTORY" = some "" := by
    unfold get_persist_directory
    cases henv : env "CHROMA_PERSIST_DIRECTORY" with
    | none => simp [henv]
    | some v => simp [henv]
  have hmain : ∀ a : Option String,
      ((match a with
        | some s => if s = "" then get_persist_directory env else s
        | Option.none => get_persist_directory env) == "") = true ↔
      ((a = Option.none ∨ a = some "") ∧
        env "CHROMA_PERSIST_DIRECTORY" = some "") := by
    intro a
    cases a with
    | none => simp [beq_iff_eq, hget]
    | some s =>
      by_cases hs : s = ""
      · subst hs
        simp [beq_iff_eq, hget]
      · simp [hs, beq_iff_eq]
  exact ⟨by simpa [Chroma.init_persist_missing,
      Chroma.resolved_persist_directory] using hmain arg,
    by simpa [Chroma.persistentClient_path_missing] using hmain arg⟩
